import Mathlib

/-!
Shallow embedding of the `flask_request_response_processor` package
(files `Processor.py` and `Formatter.py`) and proofs about its
documented behaviour.

Conventions of the embedding:
* Python values that can appear in `app.config` or as the result of a
  JSON parse are modelled by the inductive type `PyVal`; the Python
  object `None` is `PyVal.none` (Python's `json.loads` returns `None`
  both for the JSON literal `null`, and Flask's `get_json(silent=True)`
  returns `None` on failure, so the conflation is faithful).
* Byte strings are `List Nat` (each entry one byte).
* Python exceptions that matter to the embedded code are the inductive
  type `PyExc`; a function that can raise returns `Except PyExc α`,
  a function that cannot raise returns `α`.
* Flask's request and response objects are external collaborators; they
  are modelled as structures exposing exactly the fields/methods the
  formatter reads (`query_string`, `headers.to_wsgi_list()`,
  `get_data()`, `get_json(silent=True)`, `status_code`,
  `get_data(as_text=True)`, `content_type`).
-/

namespace FlaskRRP

/-- Python values: `None`, `bool`, `int`, `str`, `list`, `dict` with
string keys (the shapes produced by `json.loads` and expected in
`app.config`).  JSON numbers are modelled as integers; no claim
exercises fractional numbers. -/
inductive PyVal where
  | none : PyVal
  | bool (b : Bool) : PyVal
  | int (n : Int) : PyVal
  | str (s : String) : PyVal
  | list (xs : List PyVal) : PyVal
  | dict (kvs : List (String × PyVal)) : PyVal

/-- Python `x is None` (for values of `PyVal`). -/
def PyVal.is_none : PyVal → Bool
  | PyVal.none => true
  | _ => false

/-- Python `type(x) == list` (an exact type check: `bool` or `dict`
values are not lists). -/
def PyVal.is_list : PyVal → Bool
  | PyVal.list _ => true
  | _ => false

/-- Python `type(x) == bool` (an exact type check: the ints `0`/`1`
are not bools). -/
def PyVal.is_bool : PyVal → Bool
  | PyVal.bool _ => true
  | _ => false

/-- The Python exceptions relevant to the embedded code. -/
inductive PyExc where
  | unicodeDecodeError : PyExc
  | runtimeError : PyExc
  | jsonDecodeError : PyExc
  | userError : PyExc
deriving DecidableEq

/-- Whether a byte is a UTF-8 continuation byte (`0x80..0xBF`). -/
def utf8_is_cont (b : Nat) : Bool :=
  0x80 ≤ b && b ≤ 0xBF

/-- Strict UTF-8 decoding of a byte list, exactly the acceptance table
of Python's `bytes.decode('utf-8')` (RFC 3629: no overlong forms, no
surrogates, nothing above `U+10FFFF`).  Returns `Option.none` on the
first invalid sequence, where Python raises `UnicodeDecodeError`.
`fuel` is consumed one unit per decoded character; every decoded
character consumes at least one input byte, so `fuel = length` always
suffices. -/
def utf8_decode_go : Nat → List Nat → Option (List Char)
  | _, [] => Option.some []
  | 0, _ :: _ => Option.none
  | fuel + 1, b :: rest =>
    if b < 0x80 then
      (utf8_decode_go fuel rest).map (fun cs => Char.ofNat b :: cs)
    else if 0xC2 ≤ b && b ≤ 0xDF then
      match rest with
      | c1 :: rest2 =>
        if utf8_is_cont c1 then
          (utf8_decode_go fuel rest2).map
            (fun cs => Char.ofNat ((b - 0xC0) * 0x40 + (c1 - 0x80)) :: cs)
        else Option.none
      | [] => Option.none
    else if 0xE0 ≤ b && b ≤ 0xEF then
      match rest with
      | c1 :: c2 :: rest2 =>
        let c1ok :=
          if b = 0xE0 then 0xA0 ≤ c1 && c1 ≤ 0xBF
          else if b = 0xED then 0x80 ≤ c1 && c1 ≤ 0x9F
          else utf8_is_cont c1
        if c1ok && utf8_is_cont c2 then
          (utf8_decode_go fuel rest2).map
            (fun cs =>
              Char.ofNat ((b - 0xE0) * 0x1000 + (c1 - 0x80) * 0x40 + (c2 - 0x80)) :: cs)
        else Option.none
      | _ => Option.none
    else if 0xF0 ≤ b && b ≤ 0xF4 then
      match rest with
      | c1 :: c2 :: c3 :: rest2 =>
        let c1ok :=
          if b = 0xF0 then 0x90 ≤ c1 && c1 ≤ 0xBF
          else if b = 0xF4 then 0x80 ≤ c1 && c1 ≤ 0x8F
          else utf8_is_cont c1
        if c1ok && utf8_is_cont c2 && utf8_is_cont c3 then
          (utf8_decode_go fuel rest2).map
            (fun cs =>
              Char.ofNat ((b - 0xF0) * 0x40000 + (c1 - 0x80) * 0x1000 +
                (c2 - 0x80) * 0x40 + (c3 - 0x80)) :: cs)
        else Option.none
      | _ => Option.none
    else Option.none

/-- Python `bs.decode('utf-8')`: `Option.some` of the decoded string,
or `Option.none` where Python raises `UnicodeDecodeError`. -/
def utf8_decode (bs : List Nat) : Option String :=
  (utf8_decode_go bs.length bs).map List.asString

/-- The fields of a Flask request object read by the formatter:
`request.query_string` (raw bytes), `request.headers.to_wsgi_list()`
(header tuples, modelled as lists so that non-pair tuples are
representable), `request.get_data()` (raw body bytes) and the result
of `request.get_json(silent=True)` (`PyVal.none` when Flask could not
produce JSON). -/
structure PyRequest where
  query_string : List Nat
  headers : List (List String)
  data : List Nat
  get_json : PyVal

/-- The fields of a Flask response object read by the processor and
formatter: `response.status_code`, the result of
`response.get_data(as_text=True)` (`Option.none` models the
`RuntimeError` raised in direct-passthrough mode) and
`response.content_type`. -/
structure PyResponse where
  status_code : Int
  get_data : Option String
  content_type : String

/-- Python `d[k] = v` on a string dict: replaces the value in place if
the key exists (keeping insertion order), otherwise appends. -/
def dict_set (d : List (String × String)) (k v : String) : List (String × String) :=
  if d.any (fun kv => decide (kv.1 = k)) then
    d.map (fun kv => if kv.1 = k then (k, v) else kv)
  else
    d ++ [(k, v)]

/-- Python `d.get(k)` / `k in d` on a string dict (keys are unique by
construction, so the first match is the match). -/
def dict_get (d : List (String × String)) (k : String) : Option String :=
  (d.find? (fun kv => decide (kv.1 = k))).map (fun kv => kv.2)

namespace FlaskRequestFormatter

/-- Accessor `FlaskRequestFormatter.query_string`.  The source wraps
`self.__request__.query_string.decode('utf-8')` in
`except UnicodeEncodeError`, but `bytes.decode` raises
`UnicodeDecodeError` — which is not a subclass of
`UnicodeEncodeError` — so the handler is dead code and a decode
failure escapes the accessor.  The embedding returns
`Except.error PyExc.unicodeDecodeError` exactly there. -/
def query_string (req : PyRequest) : Except PyExc String :=
  match utf8_decode req.query_string with
  | Option.some s => Except.ok s
  | Option.none => Except.error PyExc.unicodeDecodeError

/-- Accessor `FlaskRequestFormatter.headers`: the dict comprehension
`{header[0]: header[1] for header in headers if len(header) == 2}`
over `to_wsgi_list()`, as a fold of Python dict assignment. -/
def headers (req : PyRequest) : List (String × String) :=
  req.headers.foldl
    (fun d h =>
      match h with
      | [k, v] => dict_set d k v
      | _ => d)
    []

/-- Accessor `FlaskRequestFormatter.payload_raw`: same dead
`except UnicodeEncodeError` handler as `query_string`, over
`self.__request__.get_data().decode('utf-8')`. -/
def payload_raw (req : PyRequest) : Except PyExc String :=
  match utf8_decode req.data with
  | Option.some s => Except.ok s
  | Option.none => Except.error PyExc.unicodeDecodeError

/-- Accessor `FlaskRequestFormatter.payload_json`: delegates to
`request.get_json(silent=True)`. -/
def payload_json (req : PyRequest) : PyVal :=
  req.get_json

/-- Accessor `FlaskRequestFormatter.payload_is_json`:
`'Content-Type' in headers and headers['Content-Type'] ==
'application/json' and payload_json is not None`. -/
def payload_is_json (req : PyRequest) : Bool :=
  match dict_get (headers req) "Content-Type" with
  | Option.some ct => ct == "application/json" && !(payload_json req).is_none
  | Option.none => false

end FlaskRequestFormatter

/-- Lowercase hex digit, as emitted by Python's `json.dumps`. -/
def hex_digit (n : Nat) : Char :=
  if n < 10 then Char.ofNat (48 + n) else Char.ofNat (87 + n)

/-- Four lowercase hex digits. -/
def hex4 (n : Nat) : String :=
  String.mk [hex_digit (n / 0x1000 % 16), hex_digit (n / 0x100 % 16),
    hex_digit (n / 0x10 % 16), hex_digit (n % 16)]

/-- Escaping of one character inside a JSON string, exactly Python's
`json.dumps` default (`ensure_ascii=True`): `\"`, `\\`, the short
escapes `\b \t \n \f \r`, `\uXXXX` for other control or non-ASCII
characters (surrogate pairs above `U+FFFF`), and the character itself
for printable ASCII. -/
def json_escape_char (c : Char) : String :=
  let n := c.toNat
  if c = '"' then "\\\""
  else if c = '\\' then "\\\\"
  else if n = 0x08 then "\\b"
  else if n = 0x09 then "\\t"
  else if n = 0x0A then "\\n"
  else if n = 0x0C then "\\f"
  else if n = 0x0D then "\\r"
  else if n < 0x20 then "\\u" ++ hex4 n
  else if n < 0x7F then String.singleton c
  else if n ≤ 0xFFFF then "\\u" ++ hex4 n
  else
    "\\u" ++ hex4 (0xD800 + (n - 0x10000) / 0x400) ++
      "\\u" ++ hex4 (0xDC00 + (n - 0x10000) % 0x400)

/-- A JSON string literal for `s`, Python `json.dumps` style. -/
def json_quote (s : String) : String :=
  "\"" ++ String.join (s.data.map json_escape_char) ++ "\""

mutual

/-- Serialization of a `PyVal`, exactly Python's
`json.dumps(v, separators=(',', ':'))` (the module constant
`__json_separators__`): item separator `,` and key separator `:`,
with no spaces.  On `PyVal` values (the shapes `json.loads` /
`get_json` can ever produce) `json.dumps` is total: the only
exceptions it can raise concern non-serializable objects, which
cannot occur here. -/
def json_dumps : PyVal → String
  | PyVal.none => "null"
  | PyVal.bool true => "true"
  | PyVal.bool false => "false"
  | PyVal.int n => toString n
  | PyVal.str s => json_quote s
  | PyVal.list xs => "[" ++ json_dumps_list xs ++ "]"
  | PyVal.dict kvs => "\x7b" ++ json_dumps_members kvs ++ "\x7d"

/-- Array elements joined by the item separator `,`. -/
def json_dumps_list : List PyVal → String
  | [] => ""
  | [v] => json_dumps v
  | v :: rest => json_dumps v ++ "," ++ json_dumps_list rest

/-- Object members `key:value` joined by the item separator `,`. -/
def json_dumps_members : List (String × PyVal) → String
  | [] => ""
  | [kv] => json_quote kv.1 ++ ":" ++ json_dumps kv.2
  | kv :: rest => json_quote kv.1 ++ ":" ++ json_dumps kv.2 ++ "," ++ json_dumps_members rest

end

/-- JSON whitespace skipping (space, tab, newline, carriage return),
as in Python's `json.loads`. -/
def skip_ws (cs : List Char) : List Char :=
  cs.dropWhile (fun c => c == ' ' || c == '\t' || c == '\n' || c == '\r')

/-- Value of a hex digit, if any. -/
def hex_val (c : Char) : Option Nat :=
  if '0' ≤ c && c ≤ '9' then Option.some (c.toNat - 48)
  else if 'a' ≤ c && c ≤ 'f' then Option.some (c.toNat - 87)
  else if 'A' ≤ c && c ≤ 'F' then Option.some (c.toNat - 70)
  else Option.none

/-- The character denoted by a one-letter JSON string escape. -/
def json_unescape (e : Char) : Option Char :=
  if e = '"' then Option.some '"'
  else if e = '\\' then Option.some '\\'
  else if e = '/' then Option.some '/'
  else if e = 'b' then Option.some (Char.ofNat 0x08)
  else if e = 'f' then Option.some (Char.ofNat 0x0C)
  else if e = 'n' then Option.some '\n'
  else if e = 'r' then Option.some '\r'
  else if e = 't' then Option.some '\t'
  else Option.none

/-- Body of a JSON string literal (the opening quote already
consumed): returns the decoded characters and the input after the
closing quote.  Strict mode: raw control characters below `0x20` are
rejected.  `\u` escapes are mapped through `Char.ofNat`; surrogate
pairs are not recombined (no claim exercises `\u` escapes). -/
def parse_jstring_go : Nat → List Char → Option (List Char × List Char)
  | 0, _ => Option.none
  | _ + 1, [] => Option.none
  | fuel + 1, c :: rest =>
    if c = '"' then Option.some ([], rest)
    else if c = '\\' then
      match rest with
      | [] => Option.none
      | e :: rest2 =>
        if e = 'u' then
          match rest2 with
          | h1 :: h2 :: h3 :: h4 :: rest3 =>
            match hex_val h1, hex_val h2, hex_val h3, hex_val h4 with
            | Option.some a, Option.some b, Option.some c3, Option.some d =>
              (parse_jstring_go fuel rest3).map
                (fun p => (Char.ofNat (a * 0x1000 + b * 0x100 + c3 * 0x10 + d) :: p.1, p.2))
            | _, _, _, _ => Option.none
          | _ => Option.none
        else
          match json_unescape e with
          | Option.some ec =>
            (parse_jstring_go fuel rest2).map (fun p => (ec :: p.1, p.2))
          | Option.none => Option.none
    else if c.toNat < 0x20 then Option.none
    else (parse_jstring_go fuel rest).map (fun p => (c :: p.1, p.2))

/-- A JSON string literal body as a `String`. -/
def parse_jstring (cs : List Char) : Option (String × List Char) :=
  (parse_jstring_go (cs.length + 1) cs).map (fun p => (p.1.asString, p.2))

/-- A JSON number.  Python's `json` accepts integers and floats; the
embedding models integers only and treats fractional/exponent forms
as a parse failure (no claim exercises non-integer numbers).  Strict
JSON: no leading zeros, no lone minus. -/
def parse_jint (cs : List Char) : Option (PyVal × List Char) :=
  let neg := match cs with
    | '-' :: _ => true
    | _ => false
  let cs1 := if neg then cs.tail else cs
  let ds := cs1.takeWhile Char.isDigit
  let rest := cs1.dropWhile Char.isDigit
  match ds with
  | [] => Option.none
  | '0' :: _ :: _ => Option.none
  | _ =>
    match rest with
    | '.' :: _ => Option.none
    | 'e' :: _ => Option.none
    | 'E' :: _ => Option.none
    | _ =>
      let n : Nat := ds.foldl (fun a c => a * 10 + (c.toNat - 48)) 0
      Option.some (PyVal.int (if neg then -(n : Int) else (n : Int)), rest)

/-- Python dict assignment for object members: a duplicate key keeps
its first position but takes the later value (as in `json.loads`,
where later duplicates win). -/
def pyval_dict_set (d : List (String × PyVal)) (k : String) (v : PyVal) :
    List (String × PyVal) :=
  if d.any (fun kv => kv.1 == k) then
    d.map (fun kv => if kv.1 == k then (k, v) else kv)
  else
    d ++ [(k, v)]

/-- Parsing state: a top-level value, the elements of an array after
`[` (with the elements read so far), or the members of an object
after `\x7b` (with the members read so far). -/
inductive JMode where
  | value : JMode
  | elems (acc : List PyVal) : JMode
  | membs (acc : List (String × PyVal)) : JMode

/-- Recursive descent over JSON text, the grammar of Python's
`json.loads` (strict mode).  `fuel` decreases on every recursive
call; every two consecutive calls consume at least one input
character, so the fuel chosen by `json_loads` suffices for any
input. -/
def parse_jvalue_go : Nat → JMode → List Char → Option (PyVal × List Char)
  | 0, _, _ => Option.none
  | fuel + 1, JMode.value, cs =>
    match skip_ws cs with
    | 'n' :: 'u' :: 'l' :: 'l' :: rest => Option.some (PyVal.none, rest)
    | 't' :: 'r' :: 'u' :: 'e' :: rest => Option.some (PyVal.bool true, rest)
    | 'f' :: 'a' :: 'l' :: 's' :: 'e' :: rest => Option.some (PyVal.bool false, rest)
    | '"' :: rest => (parse_jstring rest).map (fun p => (PyVal.str p.1, p.2))
    | '[' :: rest => parse_jvalue_go fuel (JMode.elems []) rest
    | '\x7b' :: rest => parse_jvalue_go fuel (JMode.membs []) rest
    | cs1 => parse_jint cs1
  | fuel + 1, JMode.elems acc, cs =>
    match acc, skip_ws cs with
    | [], ']' :: rest => Option.some (PyVal.list [], rest)
    | _, _ =>
      match parse_jvalue_go fuel JMode.value cs with
      | Option.some (v, cs1) =>
        match skip_ws cs1 with
        | ',' :: rest => parse_jvalue_go fuel (JMode.elems (acc ++ [v])) rest
        | ']' :: rest => Option.some (PyVal.list (acc ++ [v]), rest)
        | _ => Option.none
      | Option.none => Option.none
  | fuel + 1, JMode.membs acc, cs =>
    match acc, skip_ws cs with
    | [], '\x7d' :: rest => Option.some (PyVal.dict [], rest)
    | _, _ =>
      match skip_ws cs with
      | '"' :: cs1 =>
        match parse_jstring cs1 with
        | Option.some (k, cs2) =>
          match skip_ws cs2 with
          | ':' :: cs3 =>
            match parse_jvalue_go fuel JMode.value cs3 with
            | Option.some (v, cs4) =>
              match skip_ws cs4 with
              | ',' :: rest => parse_jvalue_go fuel (JMode.membs (pyval_dict_set acc k v)) rest
              | '\x7d' :: rest => Option.some (PyVal.dict (pyval_dict_set acc k v), rest)
              | _ => Option.none
            | Option.none => Option.none
          | _ => Option.none
        | Option.none => Option.none
      | _ => Option.none

/-- Python `json.loads(s)`: the parsed value, or
`Except.error PyExc.jsonDecodeError` where `json.loads` raises
`json.JSONDecodeError` (empty input, trailing garbage, malformed
text). -/
def json_loads (s : String) : Except PyExc PyVal :=
  match parse_jvalue_go (2 * s.length + 4) JMode.value s.data with
  | Option.some (v, rest) =>
    if skip_ws rest = [] then Except.ok v else Except.error PyExc.jsonDecodeError
  | Option.none => Except.error PyExc.jsonDecodeError

namespace FlaskRequestFormatter

/-- Accessor `FlaskRequestFormatter.payload_json_compressed_str`:
`json.dumps(self.payload_json, separators=__json_separators__)`.
The source wraps the call in `except json.JSONDecodeError`, but
`json.dumps` never raises that exception (and on `PyVal` values it
raises nothing at all), so the handler is unreachable and the result
is always the serialization — in particular `json.dumps(None)` is the
string `"null"`, not the empty string. -/
def payload_json_compressed_str (req : PyRequest) : String :=
  json_dumps (payload_json req)

end FlaskRequestFormatter

namespace FlaskResponseFormatter

/-- Accessor `FlaskResponseFormatter.response_raw`:
`self.__response__.get_data(as_text=True)` with `except RuntimeError`
returning the empty string (direct-passthrough responses). -/
def response_raw (resp : PyResponse) : String :=
  match resp.get_data with
  | Option.some s => s
  | Option.none => ""

/-- Accessor `FlaskResponseFormatter.response_json`: `response_data = None`,
then `json.loads(self.response_raw)` with `except json.JSONDecodeError`
leaving `response_data` as `None`. -/
def response_json (resp : PyResponse) : PyVal :=
  match json_loads (response_raw resp) with
  | Except.ok v => v
  | Except.error _ => PyVal.none

/-- Accessor `FlaskResponseFormatter.response_json_compressed_str`: same shape
as `payload_json_compressed_str` (the `except json.JSONDecodeError`
handler around `json.dumps` is unreachable). -/
def response_json_compressed_str (resp : PyResponse) : String :=
  json_dumps (response_json resp)

/-- Accessor `FlaskResponseFormatter.response_is_json`:
`self.__response__.content_type == 'application/json' and
self.response_json is not None`. -/
def response_is_json (resp : PyResponse) : Bool :=
  resp.content_type == "application/json" && !(response_json resp).is_none

end FlaskResponseFormatter

/-- Python `app.config.get(k)`: the stored value, or `None` when the
key is absent.  The config store is a Python dict, so keys are
unique; it is modelled as its entry list. -/
def config_get (config : List (String × PyVal)) (k : String) : PyVal :=
  match config.find? (fun kv => kv.1 == k) with
  | Option.some kv => kv.2
  | Option.none => PyVal.none

/-- ASCII whitespace, as stripped by Python `str.strip()`. -/
def py_is_space (c : Char) : Bool :=
  c == ' ' || c == '\t' || c == '\n' || c == '\r' || c == '\x0b' || c == '\x0c'

/-- Python `s.strip()`: whitespace removed from both ends. -/
def py_strip (s : String) : String :=
  (((s.data.dropWhile py_is_space).reverse.dropWhile py_is_space).reverse).asString

/-- The two configuration key names computed by
`FlaskRequestResponseProcessor.__init__`: the prefix is stripped and
replaced by `REQUEST_RESPONSE_PROCESSOR` when blank, then suffixed
with `_STATUS_CODES` and `_STATUS_CODES_EXCLUDE_ONLY`. -/
def processor_labels (pfx : String) : String × String :=
  let p := py_strip pfx
  let p2 := if p = "" then "REQUEST_RESPONSE_PROCESSOR" else p
  (p2 ++ "_STATUS_CODES", p2 ++ "_STATUS_CODES_EXCLUDE_ONLY")

/-- The three values `init_app` computes and the two hook closures
capture: `filter_status_codes`, `filter_status_codes_exclude_only`
and `filter_status_codes_empty`.  They are never written again after
`init_app` returns. -/
structure FilterInit where
  filter_status_codes : List PyVal
  filter_status_codes_exclude_only : Bool
  filter_status_codes_empty : Bool

/-- Method `FlaskRequestResponseProcessor.init_app`: reads the two config
values, normalizes a non-`list` (including absent) status-code value
to `[]` via `type(x) != list`, normalizes a non-`bool` (including
absent) exclude flag to `False` via `type(x) != bool`, and captures
`len(filter_status_codes) == 0`. -/
def init_app (labels : String × String) (config : List (String × PyVal)) : FilterInit :=
  let v := config_get config labels.1
  let filter_status_codes : List PyVal :=
    match v with
    | PyVal.list xs => xs
    | _ => []
  let w := config_get config labels.2
  let filter_status_codes_exclude_only : Bool :=
    match w with
    | PyVal.bool b => b
    | _ => false
  ⟨filter_status_codes, filter_status_codes_exclude_only,
    filter_status_codes.length == 0⟩

/-- Method `FlaskRequestResponseProcessor.process_request_response`: the
decorator body is `self.__process_request_response_f__ = f` with no
`return` statement.  The result is the pair (new callback slot,
Python return value): the slot is unconditionally replaced by `f`,
and the return value is `None` — so a name decorated at the call site
is rebound to `None`. -/
def process_request_response {C : Type} (_slot : Option C) (f : C) :
    Option C × Option C :=
  (Option.some f, Option.none)

/-- Python `status in filter_status_codes` for an `int` status code:
list membership by `==`, where an int equals an int numerically,
equals a bool via `True == 1` / `False == 0`, and equals no value of
any other type. -/
def py_int_in (xs : List PyVal) (n : Int) : Bool :=
  xs.any (fun v =>
    match v with
    | PyVal.int m => m == n
    | PyVal.bool b => (if b then (1 : Int) else 0) == n
    | _ => false)

/-- The `after_request` hook registered by `init_app`.  `C` is the
type of registered callbacks and `run` is callback invocation, which
either returns (`Except.ok`) or raises (`Except.error`).  The hook
computes `process_func` (`True` when the captured empty flag is set,
otherwise `(status_code in filter_status_codes) !=
filter_status_codes_exclude_only`), invokes the registered callback
inside `try ... except BaseException` when `process_func` holds and
the slot is not `None`, and always returns the response.  The second
component of the result records which callback was invoked (and is
`Option.none` when none was). -/
def after_request {C : Type} (run : C → PyRequest → PyResponse → Except PyExc Unit)
    (codesEmpty : Bool) (codes : List PyVal) (excludeOnly : Bool)
    (slot : Option C) (req : PyRequest) (resp : PyResponse) :
    PyResponse × Option C :=
  let process_func : Bool :=
    if codesEmpty then true
    else py_int_in codes resp.status_code != excludeOnly
  if process_func then
    match slot with
    | Option.some f =>
      match run f req resp with
      | Except.ok _ => (resp, Option.some f)
      | Except.error _ => (resp, Option.some f)
    | Option.none => (resp, Option.none)
  else
    (resp, Option.none)

/-!  Helper lemmas (shared between the claim theorems). -/

/-- Characterization of `is_none = true`. -/
theorem PyVal.is_none_iff (v : PyVal) : v.is_none = true ↔ v = PyVal.none := by
  cases v <;> simp [PyVal.is_none]

/-- Both branches of the `try`/`except BaseException` produce the same
pair, so a populated slot dispatches exactly when `process_func`
holds. -/
theorem after_request_some {C : Type}
    (run : C → PyRequest → PyResponse → Except PyExc Unit)
    (ce : Bool) (cs : List PyVal) (x : Bool) (f : C)
    (req : PyRequest) (resp : PyResponse) :
    after_request run ce cs x (Option.some f) req resp
      = (resp,
          if (if ce then true else py_int_in cs resp.status_code != x)
          then Option.some f else Option.none) := by
  unfold after_request
  by_cases h : (if ce then true else py_int_in cs resp.status_code != x) = true
  · simp only [h, if_true]
    cases run f req resp <;> rfl
  · simp only [Bool.not_eq_true] at h
    simp [h]

/-- An empty slot never dispatches. -/
theorem after_request_none {C : Type}
    (run : C → PyRequest → PyResponse → Except PyExc Unit)
    (ce : Bool) (cs : List PyVal) (x : Bool)
    (req : PyRequest) (resp : PyResponse) :
    after_request run ce cs x (Option.none : Option C) req resp
      = (resp, Option.none) := by
  unfold after_request
  by_cases h : (if ce then true else py_int_in cs resp.status_code != x) = true
  · simp [h]
  · simp only [Bool.not_eq_true] at h
    simp [h]

/-- Membership of an `int` status code in a config list of `int`s is
plain list membership. -/
theorem py_int_in_map_int (codes : List Int) (n : Int) :
    py_int_in (codes.map PyVal.int) n = decide (n ∈ codes) := by
  induction codes with
  | nil => rfl
  | cons c cs ih =>
    simp [py_int_in, List.any_cons] at ih ⊢
    rw [ih]
    have hc : (c == n) = decide (n = c) := by
      by_cases h : n = c
      · simp [h]
      · simp [h, beq_eq_false_iff_ne, Ne.symm h]
    rw [hc]

/-- Replacing the value under `k` leaves lookups of other keys
unchanged. -/
theorem find?_dict_subst (d : List (String × String)) (k v k' : String)
    (hne : k' ≠ k) :
    (d.map (fun kv => if kv.1 = k then (k, v) else kv)).find?
        (fun kv => decide (kv.1 = k'))
      = d.find? (fun kv => decide (kv.1 = k')) := by
  induction d with
  | nil => rfl
  | cons a tl ih =>
    by_cases hb : a.1 = k
    · simp only [List.map_cons, if_pos hb, List.find?_cons,
        decide_eq_false (Ne.symm hne), decide_eq_false (hb ▸ Ne.symm hne : ¬a.1 = k')]
      exact ih
    · by_cases hc : a.1 = k'
      · simp only [List.map_cons, if_neg hb, List.find?_cons, decide_eq_true hc]
      · simp only [List.map_cons, if_neg hb, List.find?_cons, decide_eq_false hc]
        exact ih

/-- If some entry has key `k`, the first such entry becomes `(k, v)`
after substitution, and lookup of `k` finds it. -/
theorem find?_dict_subst_self (d : List (String × String)) (k v : String)
    (ha : d.any (fun kv => decide (kv.1 = k)) = true) :
    (d.map (fun kv => if kv.1 = k then (k, v) else kv)).find?
        (fun kv => decide (kv.1 = k))
      = Option.some (k, v) := by
  induction d with
  | nil => simp at ha
  | cons a tl ih =>
    by_cases hb : a.1 = k
    · simp [List.map_cons, if_pos hb, List.find?_cons]
    · simp only [List.any_cons, decide_eq_false hb, Bool.false_or] at ha
      simp only [List.map_cons, if_neg hb, List.find?_cons, decide_eq_false hb]
      exact ih ha

/-- Lookup after Python dict assignment: the assigned key now maps to
the assigned value, every other key is unchanged. -/
theorem dict_get_dict_set (d : List (String × String)) (k v k' : String) :
    dict_get (dict_set d k v) k'
      = if k' = k then Option.some v else dict_get d k' := by
  unfold dict_set dict_get
  by_cases ha : d.any (fun kv => decide (kv.1 = k)) = true
  · simp only [ha, if_true]
    by_cases hk : k' = k
    · subst hk
      simp [find?_dict_subst_self d k' v ha]
    · simp [find?_dict_subst d k v k' hk, hk]
  · simp only [Bool.not_eq_true] at ha
    simp only [ha, Bool.false_eq_true, if_false]
    have hnone : d.find? (fun kv => decide (kv.1 = k)) = Option.none := by
      rw [List.find?_eq_none]
      intro x hx
      have hfalse := List.any_eq_false.mp ha x hx
      simpa using hfalse
    by_cases hk : k' = k
    · subst hk
      rw [List.find?_append, hnone]
      simp
    · rw [List.find?_append]
      simp only [hk, if_false]
      cases hf : d.find? (fun kv => decide (kv.1 = k')) with
      | some a => simp [Option.orElse, hf]
      | none =>
        simp [Option.orElse, hf, List.find?_cons, decide_eq_false (Ne.symm hk)]

/-- The claim's description of the `headers` accessor: the value of
the LAST two-element header pair carrying the given name (pairs of
any other length are ignored), if any. -/
def last_header_value : List (List String) → String → Option String
  | [], _ => Option.none
  | h :: rest, k =>
    match last_header_value rest k with
    | Option.some v => Option.some v
    | Option.none =>
      match h with
      | [k1, v] => if k1 = k then Option.some v else Option.none
      | _ => Option.none

/-- Folding header pairs into a dict realizes last-pair-wins lookup,
generalized over the starting dict. -/
theorem headers_fold_invariant (entries : List (List String))
    (d : List (String × String)) (k : String) :
    dict_get
        (entries.foldl
          (fun d h =>
            match h with
            | [k1, v] => dict_set d k1 v
            | _ => d)
          d)
        k
      = match last_header_value entries k with
        | Option.some v => Option.some v
        | Option.none => dict_get d k := by
  induction entries generalizing d with
  | nil => simp [last_header_value]
  | cons h rest ih =>
    rw [List.foldl_cons, ih]
    cases hr : last_header_value rest k with
    | some v => simp [last_header_value, hr]
    | none =>
      simp only [last_header_value, hr]
      match h with
      | [] => rfl
      | [_] => rfl
      | k1 :: v :: _ :: _ => rfl
      | [k1, v] =>
        rw [dict_get_dict_set]
        by_cases hk : k1 = k
        · subst hk
          simp
        · simp [hk, Ne.symm hk]

/-!  Claim theorems. -/

/-- C2: the claim says every formatter accessor is total and that
`query_string` / `payload_raw` return the empty string on UTF-8
decode failure.  The code violates this: the `try` blocks catch
`UnicodeEncodeError`, but `bytes.decode('utf-8')` raises
`UnicodeDecodeError`, which is not a subclass of it, so on the byte
`0xff` (invalid in UTF-8) both accessors propagate the exception
instead of returning `''`. -/
theorem query_string_payload_raw_decode_error_escapes :
    (FlaskRequestFormatter.query_string ⟨[0xff], [], [], PyVal.none⟩
      = Except.error PyExc.unicodeDecodeError)
    ∧ (FlaskRequestFormatter.payload_raw ⟨[], [], [0xff], PyVal.none⟩
      = Except.error PyExc.unicodeDecodeError) :=
  ⟨rfl, rfl⟩

/-- C3: a registered callback that raises any exception when invoked
by the after-hook does not fault the hook: the exception is swallowed
by the `except BaseException` handler (the hook's return type carries
no exception at all) and the hook still returns the original response
object. -/
theorem after_request_returns_response_when_callback_raises {C : Type}
    (run : C → PyRequest → PyResponse → Except PyExc Unit)
    (f : C) (ce : Bool) (cs : List PyVal) (x : Bool)
    (req : PyRequest) (resp : PyResponse) (exc : PyExc)
    (_ : run f req resp = Except.error exc) :
    (after_request run ce cs x (Option.some f) req resp).1 = resp := by
  rw [after_request_some]

/-- C3 witness: a concrete always-raising callback; the hook returns
the concrete response unchanged. -/
theorem after_request_returns_response_when_callback_raises_witness :
    (after_request (fun (_ : Unit) _ _ => Except.error PyExc.userError)
        true [] false (Option.some ()) ⟨[], [], [], PyVal.none⟩
        ⟨503, Option.some "boom", "text/html"⟩).1
      = ⟨503, Option.some "boom", "text/html"⟩ :=
  after_request_returns_response_when_callback_raises
    (fun (_ : Unit) _ _ => Except.error PyExc.userError) ()
    true [] false ⟨[], [], [], PyVal.none⟩
    ⟨503, Option.some "boom", "text/html"⟩ PyExc.userError rfl

/-- C9: when the payload (resp. the response body) does not parse as
JSON, `payload_json` (`response_json`) is Python `None`, and
`json.dumps(None, separators=(',', ':'))` produces the string
`"null"` — not the empty string. -/
theorem compressed_str_of_null_payload_is_null_string
    (req : PyRequest) (resp : PyResponse)
    (h1 : FlaskRequestFormatter.payload_json req = PyVal.none)
    (h2 : FlaskResponseFormatter.response_json resp = PyVal.none) :
    FlaskRequestFormatter.payload_json_compressed_str req = "null"
    ∧ FlaskResponseFormatter.response_json_compressed_str resp = "null" := by
  unfold FlaskRequestFormatter.payload_json_compressed_str
    FlaskResponseFormatter.response_json_compressed_str
  rw [h1, h2]
  constructor <;> simp [json_dumps]

/-- C9 witness: a request whose `get_json(silent=True)` returned
`None` and a response whose body `"oops"` fails to parse. -/
theorem compressed_str_of_null_payload_is_null_string_witness :
    FlaskRequestFormatter.payload_json_compressed_str ⟨[], [], [], PyVal.none⟩ = "null"
    ∧ FlaskResponseFormatter.response_json_compressed_str
        ⟨500, Option.some "oops", "text/html"⟩ = "null" :=
  compressed_str_of_null_payload_is_null_string
    ⟨[], [], [], PyVal.none⟩ ⟨500, Option.some "oops", "text/html"⟩ rfl rfl

/-- C10: the decorator body stores the callback in the slot but has
no `return`, so its Python return value is `None` (the decorated name
at the call site is rebound to `None`); the stored callback is
nevertheless the one the after-hook invokes (here with the
always-dispatching empty-filter configuration). -/
theorem process_request_response_returns_none_stores_callback {C : Type}
    (run : C → PyRequest → PyResponse → Except PyExc Unit)
    (cs : List PyVal) (x : Bool) (req : PyRequest) (resp : PyResponse)
    (slot : Option C) (f : C) :
    process_request_response slot f = (Option.some f, Option.none)
    ∧ (after_request run true cs x (process_request_response slot f).1 req resp).2
      = Option.some f := by
  refine ⟨rfl, ?_⟩
  simp [process_request_response, after_request_some]

/-- C6: at initialization, a `{prefix}_STATUS_CODES` config value that
is absent or not a `list` normalizes to the empty list, and a
`{prefix}_STATUS_CODES_EXCLUDE_ONLY` value that is absent or not a
`bool` normalizes to `False`.  (The values are computed once by
`init_app` and captured immutably by the hook closures; `after_request`
takes exactly these three captured values as input.) -/
theorem init_app_normalizes_config (pfx : String)
    (config : List (String × PyVal)) :
    ((config_get config (processor_labels pfx).1).is_list = false →
      (init_app (processor_labels pfx) config).filter_status_codes = [])
    ∧ ((config_get config (processor_labels pfx).2).is_bool = false →
      (init_app (processor_labels pfx) config).filter_status_codes_exclude_only
        = false) := by
  constructor
  · intro h
    unfold init_app
    cases hv : config_get config (processor_labels pfx).1 <;>
      simp_all [PyVal.is_list]
  · intro h
    unfold init_app
    cases hw : config_get config (processor_labels pfx).2 <;>
      simp_all [PyVal.is_bool]

/-- C6 witness: a config store where the status-code key holds a
string and the exclude-only key is absent. -/
theorem init_app_normalizes_config_witness :
    (init_app (processor_labels "")
        [("REQUEST_RESPONSE_PROCESSOR_STATUS_CODES", PyVal.str "oops")]).filter_status_codes
      = []
    ∧ (init_app (processor_labels "")
        [("REQUEST_RESPONSE_PROCESSOR_STATUS_CODES", PyVal.str "oops")]).filter_status_codes_exclude_only
      = false :=
  ⟨(init_app_normalizes_config ""
      [("REQUEST_RESPONSE_PROCESSOR_STATUS_CODES", PyVal.str "oops")]).1 (by decide),
    (init_app_normalizes_config ""
      [("REQUEST_RESPONSE_PROCESSOR_STATUS_CODES", PyVal.str "oops")]).2 (by decide)⟩

/-- Characterization of `is_none = false`. -/
theorem PyVal.is_none_eq_false (v : PyVal) : v.is_none = false ↔ v ≠ PyVal.none := by
  cases v <;> simp [PyVal.is_none]

/-- C1: with a callback registered, the after-hook dispatches it
exactly when the configured status-code list is empty, or membership
of the response's status code in the list differs from the
exclude-only flag (XOR); in particular an empty list dispatches for
every status code and either flag value.  The hook receives the list
and the emptiness flag as `init_app` computes them from an integer
status-code list. -/
theorem after_request_dispatch_iff_filter {C : Type}
    (run : C → PyRequest → PyResponse → Except PyExc Unit)
    (f : C) (codes : List Int) (x : Bool)
    (req : PyRequest) (resp : PyResponse) :
    ((after_request run ((codes.map PyVal.int).length == 0) (codes.map PyVal.int)
        x (Option.some f) req resp).2).isSome = true
    ↔ (codes = [] ∨ Xor' (resp.status_code ∈ codes) (x = true)) := by
  rw [after_request_some]
  have hs : ∀ pb : Bool,
      (if pb then Option.some f else (Option.none : Option C)).isSome = pb := by
    intro pb; cases pb <;> rfl
  simp only [hs]
  cases codes with
  | nil => simp [py_int_in]
  | cons c cs =>
    simp only [List.map_cons, List.length_cons]
    have hce : ((cs.map PyVal.int).length + 1 == 0) = false := by simp
    rw [hce]
    rw [show (PyVal.int c :: cs.map PyVal.int)
        = ((c :: cs).map PyVal.int) from by simp, py_int_in_map_int]
    by_cases hm : resp.status_code ∈ c :: cs <;> cases x <;>
      simp [hm, Xor']

/-- C4: `payload_is_json` holds exactly when the `Content-Type` header
(as produced by the `headers` accessor) equals exactly
`application/json` and the structured parse returned non-null;
`response_is_json` likewise over `response.content_type` and
`response_json`; and in particular a request whose body parses but
whose declared content type is `text/plain` is not classified as
JSON. -/
theorem is_json_iff_content_type_and_parse (req : PyRequest) (resp : PyResponse) :
    (FlaskRequestFormatter.payload_is_json req = true
      ↔ (dict_get (FlaskRequestFormatter.headers req) "Content-Type"
            = Option.some "application/json"
          ∧ FlaskRequestFormatter.payload_json req ≠ PyVal.none))
    ∧ (FlaskResponseFormatter.response_is_json resp = true
      ↔ (resp.content_type = "application/json"
          ∧ FlaskResponseFormatter.response_json resp ≠ PyVal.none))
    ∧ FlaskRequestFormatter.payload_is_json
        ⟨[], [["Content-Type", "text/plain"]], [], PyVal.dict [("a", PyVal.int 1)]⟩
      = false := by
  refine ⟨?_, ?_, ?_⟩
  · unfold FlaskRequestFormatter.payload_is_json
    cases hct : dict_get (FlaskRequestFormatter.headers req) "Content-Type" with
    | none => simp
    | some ct =>
      simp [Bool.and_eq_true, beq_iff_eq, Bool.not_eq_true',
        PyVal.is_none_eq_false]
  · unfold FlaskResponseFormatter.response_is_json
    simp [Bool.and_eq_true, beq_iff_eq, Bool.not_eq_true', PyVal.is_none_eq_false]
  · decide

/-- C5: the callback slot is single-slot: any sequence of
registrations ending in `f` leaves the slot holding exactly `f`, the
after-hook then either invokes `f` or nothing (never an earlier
registration), and with the initial `None` slot (class attribute
`__process_request_response_f__ = None`) the after-hook invokes no
callback. -/
theorem registration_last_wins_single_slot {C : Type}
    (run : C → PyRequest → PyResponse → Except PyExc Unit)
    (ce : Bool) (cs : List PyVal) (x : Bool)
    (req : PyRequest) (resp : PyResponse) (fs : List C) (f : C) :
    ((fs ++ [f]).foldl (fun s g => (process_request_response s g).1) Option.none
        = Option.some f)
    ∧ ((after_request run ce cs x
          ((fs ++ [f]).foldl (fun s g => (process_request_response s g).1)
            Option.none)
          req resp).2 = Option.some f
        ∨ (after_request run ce cs x
            ((fs ++ [f]).foldl (fun s g => (process_request_response s g).1)
              Option.none)
            req resp).2 = Option.none)
    ∧ (after_request run ce cs x (Option.none : Option C) req resp).2
        = Option.none := by
  have hfold : (fs ++ [f]).foldl (fun s g => (process_request_response s g).1)
      Option.none = Option.some f := by
    rw [List.foldl_append]
    rfl
  refine ⟨hfold, ?_, ?_⟩
  · rw [hfold, after_request_some]
    by_cases hp : (if ce then true else py_int_in cs resp.status_code != x) = true
    · left
      simp [hp]
    · right
      simp only [Bool.not_eq_true] at hp
      simp [hp]
  · rw [after_request_none]

/-- C7: the compressed accessors re-serialize the parsed structure
with the separators `(',', ':')` — minified, no spaces; concretely,
the structured payload for the body `\x7b"a": 1, "b": "x"\x7d`
serializes to exactly `\x7b"a":1,"b":"x"\x7d`, both from
`get_json(silent=True)` on the request side and through
`json.loads` of the body on the response side.  (On parsed values
the serialization cannot fail; the `except` branch returning `''` is
unreachable.) -/
theorem compressed_str_minifies (req : PyRequest) (resp : PyResponse) :
    (FlaskRequestFormatter.payload_json_compressed_str req
      = json_dumps (FlaskRequestFormatter.payload_json req))
    ∧ (FlaskResponseFormatter.response_json_compressed_str resp
      = json_dumps (FlaskResponseFormatter.response_json resp))
    ∧ FlaskRequestFormatter.payload_json_compressed_str
        ⟨[], [], [], PyVal.dict [("a", PyVal.int 1), ("b", PyVal.str "x")]⟩
      = "\x7b\"a\":1,\"b\":\"x\"\x7d"
    ∧ FlaskResponseFormatter.response_json_compressed_str
        ⟨200, Option.some "\x7b\"a\": 1, \"b\": \"x\"\x7d", "application/json"⟩
      = "\x7b\"a\":1,\"b\":\"x\"\x7d" := by
  refine ⟨rfl, rfl, ?_, ?_⟩
  · show json_dumps (PyVal.dict [("a", PyVal.int 1), ("b", PyVal.str "x")])
      = "\x7b\"a\":1,\"b\":\"x\"\x7d"
    simp [json_dumps, json_dumps_members, json_quote, json_escape_char]
    rfl
  · have hparse : FlaskResponseFormatter.response_json
        ⟨200, Option.some "\x7b\"a\": 1, \"b\": \"x\"\x7d", "application/json"⟩
      = PyVal.dict [("a", PyVal.int 1), ("b", PyVal.str "x")] := rfl
    show json_dumps (FlaskResponseFormatter.response_json
        ⟨200, Option.some "\x7b\"a\": 1, \"b\": \"x\"\x7d", "application/json"⟩)
      = "\x7b\"a\":1,\"b\":\"x\"\x7d"
    rw [hparse]
    simp [json_dumps, json_dumps_members, json_quote, json_escape_char]
    rfl

/-- C8: looking up any name in the mapping produced by the `headers`
accessor yields the value of the LAST two-element header pair with
that name — header entries that are not two-element pairs are
dropped, and a later duplicate overwrites an earlier one. -/
theorem headers_pairs_only_last_wins (req : PyRequest) (k : String) :
    dict_get (FlaskRequestFormatter.headers req) k
      = last_header_value req.headers k := by
  unfold FlaskRequestFormatter.headers
  rw [headers_fold_invariant req.headers [] k]
  cases hl : last_header_value req.headers k <;> simp [dict_get]

end FlaskRRP
